import Mathlib

/-!
# Formal model of the phishing-simulation campaign manager

A shallow embedding of the campaign dispatch and tracking pipeline of the
repository: the SQLite persistence layer (`database.py`), the generator
response parser (`email_generator.py`), the campaign dispatcher
(`email_bridge.py`) and the sample-email upload handling
(`app.py` / `user_dashboard.py`).

The SQLite store is modelled as an explicit record of tables (lists of rows)
together with the AUTOINCREMENT counters; every operation that the Python code
performs against a short-lived connection becomes a pure function threading
this state.  Timestamps (`datetime.now().isoformat()`) are opaque strings
passed in by the caller.  External capabilities (the Gemini generation call,
the SMTP transport, the stdlib `.eml` parser) are modelled as oracle
parameters, exactly at the boundary where the repository code calls them.
-/

namespace PhishSim

/-! ## Data model (`database.py`, `init_database`) -/

/-- A row of the `users` table. -/
structure User where
  id : Nat
  email : String
  created_at : String
  deriving Repr, DecidableEq

/-- A row of the `sample_emails` table. -/
structure SampleEmail where
  id : Nat
  user_id : Nat
  subject : String
  body : String
  uploaded_at : String
  deriving Repr, DecidableEq

/-- A row of the `campaigns` table.  `training_links` is stored in SQLite as a
JSON-serialized array of strings; the JSON round trip is modelled by keeping
the list itself. -/
structure Campaign where
  id : Nat
  name : String
  template_format : String
  training_links : List String
  created_at : String
  deriving Repr, DecidableEq

/-- A row of the `campaign_results` table.  `clicked` and
`completed_training` are SQLite INTEGER columns holding 0 or 1. -/
structure CampaignResult where
  id : Nat
  campaign_id : Nat
  user_id : Nat
  sent_at : String
  clicked : Nat
  completed_training : Nat
  deriving Repr, DecidableEq

/-- The whole SQLite database: the four tables plus the AUTOINCREMENT
counters (next primary key for each table). -/
structure DB where
  users : List User
  sample_emails : List SampleEmail
  campaigns : List Campaign
  campaign_results : List CampaignResult
  next_user_id : Nat
  next_sample_id : Nat
  next_campaign_id : Nat
  next_result_id : Nat
  deriving Repr, DecidableEq

/-! ## User functions (`database.py`) -/

/-- Function `add_user(email)`: INSERT a row; on the UNIQUE(email) violation SQLite
raises `IntegrityError`, which the code turns into
`ValueError(f"User with email {email} already exists")`, leaving the table
unchanged (the INSERT was never committed).  The rolled-back state is
modelled by returning the original `db` alongside the error. -/
def add_user (db : DB) (email : String) (created_at : String) :
    Except String Nat × DB :=
  if db.users.any (fun u => u.email == email) then
    (.error s!"User with email {email} already exists", db)
  else
    (.ok db.next_user_id,
      { db with
        users := db.users ++ [{ id := db.next_user_id, email, created_at }],
        next_user_id := db.next_user_id + 1 })

/-- Function `get_user_by_email(email)`: SELECT * FROM users WHERE email = ?. -/
def get_user_by_email (db : DB) (email : String) : Option User :=
  db.users.find? (fun u => u.email == email)

/-- Function `get_user_by_id(user_id)`: SELECT * FROM users WHERE id = ?. -/
def get_user_by_id (db : DB) (user_id : Nat) : Option User :=
  db.users.find? (fun u => u.id == user_id)

/-! ## Sample email functions (`database.py`) -/

/-- Function `add_sample_email(user_id, subject, body)`: INSERT a row and return its
rowid. -/
def add_sample_email (db : DB) (user_id : Nat) (subject body uploaded_at : String) :
    Nat × DB :=
  (db.next_sample_id,
    { db with
      sample_emails := db.sample_emails ++
        [{ id := db.next_sample_id, user_id, subject, body, uploaded_at }],
      next_sample_id := db.next_sample_id + 1 })

/-- Descending insertion by `uploaded_at` (ISO timestamps compare
lexicographically), modelling `ORDER BY uploaded_at DESC`. -/
def insertByUploadedDesc (s : SampleEmail) : List SampleEmail → List SampleEmail
  | [] => [s]
  | t :: r =>
    if t.uploaded_at ≤ s.uploaded_at then s :: t :: r
    else t :: insertByUploadedDesc s r

/-- Function `get_sample_emails_for_user(user_id)`:
SELECT * FROM sample_emails WHERE user_id = ? ORDER BY uploaded_at DESC. -/
def get_sample_emails_for_user (db : DB) (user_id : Nat) : List SampleEmail :=
  (db.sample_emails.filter (fun s => s.user_id == user_id)).foldr
    insertByUploadedDesc []

/-! ## Campaign functions (`database.py`) -/

/-- Function `create_campaign(name, template_format, training_links)`. -/
def create_campaign (db : DB) (name template_format : String)
    (training_links : List String) (created_at : String) : Nat × DB :=
  (db.next_campaign_id,
    { db with
      campaigns := db.campaigns ++
        [{ id := db.next_campaign_id, name, template_format, training_links,
           created_at }],
      next_campaign_id := db.next_campaign_id + 1 })

/-- Function `get_campaign_by_id(campaign_id)`: SELECT * FROM campaigns WHERE id = ?. -/
def get_campaign_by_id (db : DB) (campaign_id : Nat) : Option Campaign :=
  db.campaigns.find? (fun c => c.id == campaign_id)

/-- Function `delete_campaign(campaign_id)`: DELETE FROM campaigns WHERE id = ?;
returns `cursor.rowcount > 0`, i.e. whether any row matched. -/
def delete_campaign (db : DB) (campaign_id : Nat) : Bool × DB :=
  (!(db.campaigns.filter (fun c => c.id == campaign_id)).isEmpty,
    { db with campaigns := db.campaigns.filter (fun c => c.id != campaign_id) })

/-! ## Campaign result functions (`database.py`) -/

/-- Function `log_campaign_sent(campaign_id, user_id)`: INSERT a fresh result row with
`clicked = 0`, `completed_training = 0` and return its rowid. -/
def log_campaign_sent (db : DB) (campaign_id user_id : Nat) (sent_at : String) :
    Nat × DB :=
  (db.next_result_id,
    { db with
      campaign_results := db.campaign_results ++
        [{ id := db.next_result_id, campaign_id, user_id, sent_at,
           clicked := 0, completed_training := 0 }],
      next_result_id := db.next_result_id + 1 })

/-- Function `mark_clicked(result_id)`: UPDATE campaign_results SET clicked = 1
WHERE id = ?; returns `cursor.rowcount > 0` (a row matched). -/
def mark_clicked (db : DB) (result_id : Nat) : Bool × DB :=
  (!(db.campaign_results.filter (fun r => r.id == result_id)).isEmpty,
    { db with
      campaign_results := db.campaign_results.map
        (fun r => if r.id == result_id then { r with clicked := 1 } else r) })

/-- Function `mark_training_completed(result_id)`: UPDATE campaign_results SET
completed_training = 1 WHERE id = ?; returns `cursor.rowcount > 0`. -/
def mark_training_completed (db : DB) (result_id : Nat) : Bool × DB :=
  (!(db.campaign_results.filter (fun r => r.id == result_id)).isEmpty,
    { db with
      campaign_results := db.campaign_results.map
        (fun r =>
          if r.id == result_id then { r with completed_training := 1 } else r) })

/-! ## Statistics (`database.py`, `get_stats`)

Python computes the rates in floating point and rounds to two decimals with
`round(x, 2)`; the arithmetic is modelled over `ℚ`, with rounding to two
decimals as `round (x * 100) / 100`. -/

/-- The dictionary returned by `get_stats()`. -/
structure Stats where
  total_users : Nat
  total_campaigns : Nat
  total_sent : Nat
  total_clicks : Nat
  total_completed : Nat
  click_rate : ℚ
  completion_rate : ℚ
  deriving Repr, DecidableEq

/-- Python `round(x, 2)`: round to two decimal places. -/
def round2 (x : ℚ) : ℚ := (round (x * 100) : ℤ) / 100

/-- Function `get_stats()`: COUNT the tables, then
`click_rate = (total_clicks / total_sent * 100) if total_sent > 0 else 0`
(and analogously `completion_rate`), both rounded to two decimals. -/
def get_stats (db : DB) : Stats :=
  let total_sent := db.campaign_results.length
  let total_clicks := (db.campaign_results.filter (fun r => r.clicked == 1)).length
  let total_completed :=
    (db.campaign_results.filter (fun r => r.completed_training == 1)).length
  let click_rate : ℚ :=
    if total_sent > 0 then (total_clicks : ℚ) / (total_sent : ℚ) * 100 else 0
  let completion_rate : ℚ :=
    if total_clicks > 0 then (total_completed : ℚ) / (total_clicks : ℚ) * 100 else 0
  { total_users := db.users.length
    total_campaigns := db.campaigns.length
    total_sent, total_clicks, total_completed
    click_rate := round2 click_rate
    completion_rate := round2 completion_rate }

/-! ## Email bridge (`email_bridge.py`, `send_campaign_to_users`)

The Gemini generation call (`generator.generate_email`) and the SMTP
transport (`sender.send`) are external capabilities; they are modelled as
oracle parameters `gen` (taking the enhanced prompt, the from-address and the
recipient address) and `snd`, each returning either a value or the message of
the exception it raised.  `EMAIL_MODULES_AVAILABLE` (set at import time from
the presence of `config.py`) is the `available` flag. -/

/-- The message record of `email_message.py` (`EmailMessageModel`); its fields
are fixed by the construction site in `email_generator.py` and the reads in
`email_sender.py` / `email_bridge.py`. -/
structure EmailMessageModel where
  from_addr : String
  to_addr : String
  subject : String
  body : String
  display_name : String
  deriving Repr, DecidableEq

/-- The `results` dictionary accumulated by `send_campaign_to_users`. -/
structure DispatchResults where
  success : Nat
  failed : Nat
  errors : List String
  deriving Repr, DecidableEq

/-- The link `f"http://localhost:8502?clicked={result_id}"` — the tracking link naming
a `CampaignResult` id. -/
def tracking_link_for (result_id : Nat) : String :=
  "http://localhost:8502?clicked=" ++ toString result_id

/-- The post-processing step of `send_campaign_to_users`: if the tracking link
is not a substring of the generated body, append
`f"\n\nClick here to verify: {tracking_link}"`. -/
def finalize_body (tracking_link body : String) : String :=
  if tracking_link.data <:+: body.data then body
  else body ++ ("\n\nClick here to verify: " ++ tracking_link)

/-- The sample-context block of the enhanced prompt: empty when the user has
no samples, otherwise a header line followed by, for each of the first two
samples, `f"Subject: {sample['subject']}\n{sample['body'][:200]}\n\n"`. -/
def sample_context_for (samples : List SampleEmail) : String :=
  if samples.isEmpty then ""
  else
    (samples.take 2).foldl
      (fun acc sample =>
        acc ++ "Subject: " ++ sample.subject ++ "\n" ++ sample.body.take 200 ++ "\n\n")
      "\n\nSample emails from this user for tone/style reference:\n"

/-- The enhanced Gemini prompt built by `send_campaign_to_users` (the `{{…}}`
escapes of the Python f-string are literal braces). -/
def enhanced_prompt_for (campaign : Campaign)
    (to_addr sample_context tracking_link : String) : String :=
  "Generate a realistic phishing email based on this scenario:\n"
    ++ campaign.template_format
    ++ "\n\nTarget email: " ++ to_addr ++ "\n" ++ sample_context
    ++ "\n\nRequirements:\n1. Replace ALL placeholders like \x7bname\x7d, \x7bbank\x7d, \x7bcompany\x7d with realistic values\n2. Extract a name from the email address (e.g., john.smith@example.com -> John Smith)\n3. Use realistic company/bank names (e.g., Chase Bank, Wells Fargo, Amazon, Microsoft)\n4. Include this exact tracking link in the email body: "
    ++ tracking_link
    ++ "\n5. Make the link look legitimate (e.g., \"Click here to verify your account: "
    ++ tracking_link
    ++ "\")\n6. Keep it 2-3 paragraphs, professional tone\n7. Include urgency or authority tactics\n\nOutput format:\nDISPLAY_NAME: <sender name>\nSUBJECT: <subject line>\nBODY:\n<email body with tracking link included>\n"

/-- One iteration of the `for user_id in user_ids` loop of
`send_campaign_to_users`, threading the `results` accumulator and the store.
The `try/except` around the body is modelled by the oracles returning
`Except`: the only fallible steps are the generation and transport calls, and
both error branches append `f"Failed to send to {user['email']}: {e}"`. -/
def process_user
    (gen : String → String → String → Except String EmailMessageModel)
    (snd : EmailMessageModel → Except String Unit)
    (campaign_id : Nat) (from_addr now : String) (campaign : Campaign)
    (acc : DispatchResults × DB) (user_id : Nat) : DispatchResults × DB :=
  match get_user_by_id acc.2 user_id with
  | none =>
    ({ acc.1 with
        failed := acc.1.failed + 1
        errors := acc.1.errors ++ [s!"User {user_id} not found"] }, acc.2)
  | some user =>
    match gen
        (enhanced_prompt_for campaign user.email
          (sample_context_for (get_sample_emails_for_user
            (log_campaign_sent acc.2 campaign_id user_id now).2 user_id))
          (tracking_link_for (log_campaign_sent acc.2 campaign_id user_id now).1))
        from_addr user.email with
    | .error e =>
      ({ acc.1 with
          failed := acc.1.failed + 1
          errors := acc.1.errors ++ ["Failed to send to " ++ user.email ++ ": " ++ e] },
       (log_campaign_sent acc.2 campaign_id user_id now).2)
    | .ok message =>
      match snd { message with
          body := finalize_body
            (tracking_link_for (log_campaign_sent acc.2 campaign_id user_id now).1)
            message.body } with
      | .error e =>
        ({ acc.1 with
            failed := acc.1.failed + 1
            errors := acc.1.errors ++ ["Failed to send to " ++ user.email ++ ": " ++ e] },
         (log_campaign_sent acc.2 campaign_id user_id now).2)
      | .ok _ =>
        ({ acc.1 with success := acc.1.success + 1 },
         (log_campaign_sent acc.2 campaign_id user_id now).2)

/-- Function `send_campaign_to_users(campaign_id, user_ids, from_addr)`. -/
def send_campaign_to_users
    (available : Bool)
    (gen : String → String → String → Except String EmailMessageModel)
    (snd : EmailMessageModel → Except String Unit)
    (db : DB) (campaign_id : Nat) (user_ids : List Nat)
    (from_addr now : String) : DispatchResults × DB :=
  if !available then
    ({ success := 0, failed := user_ids.length,
       errors := ["Email modules not configured. Please set up config.py with SMTP and Gemini credentials."] },
     db)
  else
    match get_campaign_by_id db campaign_id with
    | none =>
      ({ success := 0, failed := user_ids.length,
         errors := [s!"Campaign {campaign_id} not found"] }, db)
    | some campaign =>
      user_ids.foldl (process_user gen snd campaign_id from_addr now campaign)
        ({ success := 0, failed := 0, errors := [] }, db)

/-! ## Generator response parser (`email_generator.py`, `_parse_response`)

Python string values are modelled on the character lists underlying Lean
strings: `str.strip()` becomes `stripChars`, `str.split('\n')` becomes
`splitLinesChars`, `str.startswith(tag)` becomes `List.isPrefixOf`,
`str.replace(tag, "")` becomes `removeAll`, and `'\n'.join(…)` becomes
`joinLines`. -/

/-- Python `str.strip()`: remove leading and trailing whitespace. -/
def stripChars (l : List Char) : List Char :=
  ((l.dropWhile Char.isWhitespace).reverse.dropWhile Char.isWhitespace).reverse

/-- Python `str.split('\n')` (returns `[""]` on the empty string, keeps empty
segments). -/
def splitLinesChars : List Char → List (List Char)
  | [] => [[]]
  | c :: rest =>
    if c = '\n' then [] :: splitLinesChars rest
    else
      match splitLinesChars rest with
      | [] => [[c]]
      | line :: more => (c :: line) :: more

/-- Python `str.replace(c0 :: ctag, "")`: delete every leftmost non-overlapping
occurrence of the (non-empty) tag. -/
def removeAll (c0 : Char) (ctag : List Char) : List Char → List Char
  | [] => []
  | c :: rest =>
    if (c0 :: ctag).isPrefixOf (c :: rest) then
      removeAll c0 ctag (rest.drop ctag.length)
    else c :: removeAll c0 ctag rest
  termination_by l => l.length
  decreasing_by
    · simp only [List.length_cons]
      have := List.length_drop ctag.length rest
      omega
    · simp

/-- Python `'\n'.join(lines)`. -/
def joinLines : List (List Char) → List Char
  | [] => []
  | [l] => l
  | l :: l2 :: rest => l ++ '\n' :: joinLines (l2 :: rest)

/-- The `DISPLAY_NAME:` tag, head exposed. -/
def tagDisplay : List Char := 'D' :: "ISPLAY_NAME:".data

/-- The `SUBJECT:` tag, head exposed. -/
def tagSubject : List Char := 'S' :: "UBJECT:".data

/-- The `BODY:` tag, head exposed. -/
def tagBody : List Char := 'B' :: "ODY:".data

/-- The loop state of `_parse_response`. -/
structure ParseState where
  display_name : List Char
  subject : List Char
  body_lines : List (List Char)
  in_body : Bool
  deriving Repr, DecidableEq

/-- The body of the `for line in lines` loop of `_parse_response`, after the
initial `line = line.strip()`. -/
def parseLineStripped (st : ParseState) (line : List Char) : ParseState :=
  if tagDisplay.isPrefixOf line then
    { st with display_name := stripChars (removeAll 'D' "ISPLAY_NAME:".data line) }
  else if tagSubject.isPrefixOf line then
    { st with subject := stripChars (removeAll 'S' "UBJECT:".data line) }
  else if tagBody.isPrefixOf line then
    { st with in_body := true }
  else if st.in_body then
    { st with body_lines := st.body_lines ++ [line] }
  else st

/-- One iteration of the `for line in lines` loop of `_parse_response`. -/
def parseLine (st : ParseState) (line0 : List Char) : ParseState :=
  parseLineStripped st (stripChars line0)

/-- The record parsed from a generator response (`display_name`, `subject`,
`body`). -/
structure ParsedEmail where
  display_name : List Char
  subject : List Char
  body : List Char
  deriving Repr, DecidableEq

/-- Method `_parse_response(text)`: `text.strip().split('\n')`, fold the line loop,
then `display_name or "Security Team"`, `subject or "Important Account
Notice"`, `'\n'.join(body_lines).strip()`. -/
def parse_response (text : String) : ParsedEmail :=
  let st := (splitLinesChars (stripChars text.data)).foldl parseLine
    { display_name := [], subject := [], body_lines := [], in_body := false }
  { display_name := if st.display_name = [] then "Security Team".data else st.display_name
    subject := if st.subject = [] then "Important Account Notice".data else st.subject
    body := stripChars (joinLines st.body_lines) }

/-- Following the claim's words, with no exception for tag lines: the body is
every line after the `BODY:` line until the end of the response. -/
def claimed_body (text : String) : List Char :=
  joinLines
    (((splitLinesChars (stripChars text.data)).dropWhile
        (fun l => !tagBody.isPrefixOf (stripChars l))).drop 1)

/-- The last line of `lines` whose stripped form begins with the tag, with the
tag occurrences removed and the result stripped. -/
def lastTagValue (c0 : Char) (ctag : List Char) : List (List Char) → Option (List Char)
  | [] => none
  | l :: rest =>
    (lastTagValue c0 ctag rest).orElse
      (fun _ =>
        if (c0 :: ctag).isPrefixOf (stripChars l) then
          some (stripChars (removeAll c0 ctag (stripChars l)))
        else none)

/-- Whether a stripped line begins with one of the three tags. -/
def isTagLine (l : List Char) : Bool :=
  tagDisplay.isPrefixOf l || tagSubject.isPrefixOf l || tagBody.isPrefixOf l

/-- The stripped non-tag lines of a line list. -/
def nonTagLines : List (List Char) → List (List Char)
  | [] => []
  | l :: rest =>
    if isTagLine (stripChars l) then nonTagLines rest
    else stripChars l :: nonTagLines rest

/-- The stripped non-tag lines strictly after the first `BODY:` line. -/
def bodyAfterTag : List (List Char) → List (List Char)
  | [] => []
  | l :: rest =>
    if tagBody.isPrefixOf (stripChars l) then nonTagLines rest
    else bodyAfterTag rest

/-- Whether some line's stripped form begins with the tag. -/
def hasTag (c0 : Char) (ctag : List Char) (lines : List (List Char)) : Bool :=
  lines.any (fun l => (c0 :: ctag).isPrefixOf (stripChars l))

/-- A tag value with the parser's falsy-field default. -/
def withDefault (d : List Char) : Option (List Char) → List Char
  | none => d
  | some v => if v = [] then d else v

/-- The amended claim, in selector style: display name and subject come from
the (last) line beginning with their tag, the body is every line after the
`BODY:` line excluding lines that begin with one of the three tags, and
missing or empty fields fall back to the defaults. -/
def parse_response_amended (text : String) : ParsedEmail :=
  let lines := splitLinesChars (stripChars text.data)
  { display_name := withDefault "Security Team".data
      (lastTagValue 'D' "ISPLAY_NAME:".data lines)
    subject := withDefault "Important Account Notice".data
      (lastTagValue 'S' "UBJECT:".data lines)
    body := stripChars (joinLines (bodyAfterTag lines)) }

/-! ## Sample-email upload handling (`app.py` / `user_dashboard.py`)

The uploaded bytes are a `List Nat`; `bytes.decode('utf-8', errors=…)` is
modelled by a standard (RFC 3629) UTF-8 decoder whose error handling either
drops the offending lead byte and resynchronizes (`errors='ignore'`, the mode
the code uses) or emits U+FFFD for it (`errors='replace'`). -/

/-- A UTF-8 continuation byte (`0x80–0xBF`). -/
def isCont (b : Nat) : Bool := 0x80 ≤ b && b ≤ 0xBF

/-- The valid range of the second byte of a multi-byte sequence, given the
lead byte (excluding overlong encodings, surrogates, and values above
U+10FFFF). -/
def secondByteOk (b1 b2 : Nat) : Bool :=
  if b1 = 0xE0 then 0xA0 ≤ b2 && b2 ≤ 0xBF
  else if b1 = 0xED then 0x80 ≤ b2 && b2 ≤ 0x9F
  else if b1 = 0xF0 then 0x90 ≤ b2 && b2 ≤ 0xBF
  else if b1 = 0xF4 then 0x80 ≤ b2 && b2 ≤ 0x8F
  else isCont b2

/-- What the decoder emits at an undecodable byte: nothing for
`errors='ignore'`, U+FFFD for `errors='replace'`. -/
def errChars (replaceErr : Bool) : List Char :=
  if replaceErr then [Char.ofNat 0xFFFD] else []

/-- UTF-8 decoding, recursing on a fuel argument (one unit per input byte, so
fuel `l.length` always suffices: every step consumes at least one byte). -/
def utf8DecodeAux (replaceErr : Bool) : Nat → List Nat → List Char
  | _, [] => []
  | 0, _ :: _ => []
  | fuel + 1, b1 :: t1 =>
    if b1 ≤ 0x7F then
      Char.ofNat b1 :: utf8DecodeAux replaceErr fuel t1
    else if 0xC2 ≤ b1 && b1 ≤ 0xDF then
      match t1 with
      | b2 :: t2 =>
        if isCont b2 then
          Char.ofNat ((b1 - 0xC0) * 64 + (b2 - 0x80)) :: utf8DecodeAux replaceErr fuel t2
        else errChars replaceErr ++ utf8DecodeAux replaceErr fuel t1
      | [] => errChars replaceErr
    else if 0xE0 ≤ b1 && b1 ≤ 0xEF then
      match t1 with
      | b2 :: b3 :: t3 =>
        if secondByteOk b1 b2 && isCont b3 then
          Char.ofNat ((b1 - 0xE0) * 4096 + (b2 - 0x80) * 64 + (b3 - 0x80))
            :: utf8DecodeAux replaceErr fuel t3
        else errChars replaceErr ++ utf8DecodeAux replaceErr fuel t1
      | _ => errChars replaceErr ++ utf8DecodeAux replaceErr fuel t1
    else if 0xF0 ≤ b1 && b1 ≤ 0xF4 then
      match t1 with
      | b2 :: b3 :: b4 :: t4 =>
        if secondByteOk b1 b2 && isCont b3 && isCont b4 then
          Char.ofNat ((b1 - 0xF0) * 262144 + (b2 - 0x80) * 4096
              + (b3 - 0x80) * 64 + (b4 - 0x80))
            :: utf8DecodeAux replaceErr fuel t4
        else errChars replaceErr ++ utf8DecodeAux replaceErr fuel t1
      | _ => errChars replaceErr ++ utf8DecodeAux replaceErr fuel t1
    else errChars replaceErr ++ utf8DecodeAux replaceErr fuel t1

/-- UTF-8 decoding with the given error handling. -/
def utf8DecodeWith (replaceErr : Bool) (l : List Nat) : List Char :=
  utf8DecodeAux replaceErr l.length l

/-- Python `content.decode('utf-8', errors='ignore')` — what the code does: invalid
sequences are dropped. -/
def decode_utf8_ignore (content : List Nat) : String :=
  ⟨utf8DecodeWith false content⟩

/-- Modelled from the spec: decoding "with invalid sequences replaced"
(`errors='replace'`), used only to compare the claim's wording with the
code's behaviour. -/
def decode_utf8_replace (content : List Nat) : String :=
  ⟨utf8DecodeWith true content⟩

/-- Python `filename.endswith(suffix)`, modelled on the underlying character
lists. -/
def str_endswith (s suffix : String) : Bool :=
  suffix.data.isSuffixOf s.data

/-- The per-file handling of the Add User / Upload Samples upload loop: for a
`.eml` file, parse the bytes as structured mail (the stdlib
`BytesParser(...).parsebytes` plus `get_body().get_content()` is an external
capability, modelled as the oracle `parseEml` returning the optional subject
header and the plain-text body, or `none` when any of it raises); on parse
failure, or for a non-`.eml` file, fall back to `subject = filename`,
`body = content.decode('utf-8', errors='ignore')`.  The surrounding
`try/except` makes the handler total. -/
def process_uploaded_file (parseEml : List Nat → Option (Option String × String))
    (filename : String) (content : List Nat) : String × String :=
  if str_endswith filename ".eml" then
    match parseEml content with
    | some (subj, body) => (subj.getD "No Subject", body)
    | none => (filename, decode_utf8_ignore content)
  else (filename, decode_utf8_ignore content)

/-! ## Concrete stores and oracles used in witnesses -/

/-- An empty database, as produced by `init_database` on a fresh file. -/
def emptyDB : DB where
  users := []
  sample_emails := []
  campaigns := []
  campaign_results := []
  next_user_id := 1
  next_sample_id := 1
  next_campaign_id := 1
  next_result_id := 1

/-- A concrete fresh (unclicked) campaign result row. -/
def exResult : CampaignResult where
  id := 7
  campaign_id := 1
  user_id := 2
  sent_at := "2026-02-14T10:00:00"
  clicked := 0
  completed_training := 0

/-- A one-result database used by concrete witnesses. -/
def exResultDB : DB := { emptyDB with campaign_results := [exResult], next_result_id := 8 }

/-- A concrete registered user. -/
def exUser : User where
  id := 1
  email := "u1@example.com"
  created_at := "2026-02-14T09:00:00"

/-- A one-user database. -/
def exUserDB : DB := { emptyDB with users := [exUser], next_user_id := 2 }

/-- A concrete campaign template. -/
def exCampaign : Campaign where
  id := 1
  name := "Fake Bank Alert"
  template_format := "Dear \x7bname\x7d, your \x7bbank\x7d account needs verification."
  training_links := ["https://training.example.com/banking-scams"]
  created_at := "2026-02-14T09:30:00"

/-- A second concrete campaign. -/
def exCampaign2 : Campaign where
  id := 2
  name := "Parcel Notice"
  template_format := "Your parcel \x7bid\x7d is waiting."
  training_links := []
  created_at := "2026-02-14T09:45:00"

/-- A database with one user, two campaigns, and one result row belonging to
campaign 1. -/
def exFullDB : DB :=
  { emptyDB with
    users := [exUser]
    campaigns := [exCampaign, exCampaign2]
    campaign_results := [{ id := 1, campaign_id := 1, user_id := 1,
                           sent_at := "2026-02-14T10:00:00", clicked := 0,
                           completed_training := 0 }]
    next_user_id := 2
    next_campaign_id := 3
    next_result_id := 2 }

/-- A database with three result rows, exactly one of them clicked:
`get_stats` on it has `click_rate = round(100/3, 2) = 33.33`. -/
def statsDB : DB :=
  { emptyDB with
    campaign_results := [
      { exResult with id := 1, clicked := 1 },
      { exResult with id := 2 },
      { exResult with id := 3 }]
    next_result_id := 4 }

/-- A generation oracle that always succeeds with a fixed structured
message. -/
def exGen : String → String → String → Except String EmailMessageModel :=
  fun _topic from_addr to_addr =>
    .ok { from_addr := from_addr, to_addr := to_addr, subject := "Account Notice",
          body := "Please review your account.", display_name := "Security Team" }

/-- A transport oracle that always delivers. -/
def exSnd : EmailMessageModel → Except String Unit := fun _ => .ok ()

/-- A store with one user (id 1) and one campaign (id 1) for dispatch
witnesses. -/
def exDispatchDB : DB :=
  { emptyDB with
    users := [exUser]
    campaigns := [exCampaign]
    next_user_id := 2
    next_campaign_id := 2 }

/-- The store `exDispatchDB` after a successful dispatch to user 1 of
campaign 1 at time `"2026-02-14T12:00:00"`. -/
def exDispatchDB' : DB :=
  { exDispatchDB with
    campaign_results := [{ id := 1, campaign_id := 1, user_id := 1,
                           sent_at := "2026-02-14T12:00:00", clicked := 0,
                           completed_training := 0 }]
    next_result_id := 2 }

/-- An `.eml` parse oracle that always fails (a malformed file). -/
def exParseFail : List Nat → Option (Option String × String) := fun _ => none

/-! ## Helper lemmas on lists -/

/-- A map that fixes every member of a list leaves it unchanged. -/
theorem map_eq_self_of_forall_eq {α : Type} (f : α → α) :
    ∀ l : List α, (∀ a ∈ l, f a = a) → l.map f = l := by
  intro l h
  induction l with
  | nil => rfl
  | cons a t ih =>
    simp only [List.map_cons]
    rw [h a (List.mem_cons_self a t), ih fun b hb => h b (List.mem_cons_of_mem a hb)]

/-- A boolean filter is nonempty exactly when some member satisfies it. -/
theorem filter_not_isEmpty_iff {α : Type} (p : α → Bool) (l : List α) :
    (!(l.filter p).isEmpty) = true ↔ ∃ a ∈ l, p a = true := by
  simp [List.isEmpty_iff, List.filter_eq_nil_iff]

/-! ## Lemmas about the dispatch loop -/

/-- Every loop iteration increments exactly one of `success` and `failed`. -/
theorem process_user_success_failed (gen snd) (campaign_id : Nat)
    (from_addr now : String) (campaign : Campaign)
    (acc : DispatchResults × DB) (user_id : Nat) :
    (process_user gen snd campaign_id from_addr now campaign acc user_id).1.success
      + (process_user gen snd campaign_id from_addr now campaign acc user_id).1.failed
      = acc.1.success + acc.1.failed + 1 := by
  unfold process_user
  split
  · dsimp only; omega
  · split
    · dsimp only; omega
    · split
      · dsimp only; omega
      · dsimp only; omega

/-- Folding the loop over a recipient list adds its length to
`success + failed`. -/
theorem foldl_process_user_counts (gen snd) (campaign_id : Nat)
    (from_addr now : String) (campaign : Campaign) :
    ∀ (l : List Nat) (acc : DispatchResults × DB),
      (l.foldl (process_user gen snd campaign_id from_addr now campaign) acc).1.success
        + (l.foldl (process_user gen snd campaign_id from_addr now campaign) acc).1.failed
        = acc.1.success + acc.1.failed + l.length := by
  intro l
  induction l with
  | nil => intro acc; simp
  | cons uid t ih =>
    intro acc
    simp only [List.foldl_cons, List.length_cons]
    rw [ih (process_user gen snd campaign_id from_addr now campaign acc uid),
      process_user_success_failed]
    omega

/-- The loop never touches the `users` table. -/
theorem process_user_users (gen snd) (campaign_id : Nat)
    (from_addr now : String) (campaign : Campaign)
    (acc : DispatchResults × DB) (user_id : Nat) :
    (process_user gen snd campaign_id from_addr now campaign acc user_id).2.users
      = acc.2.users := by
  unfold process_user
  split
  · rfl
  · split
    · rfl
    · split
      · rfl
      · rfl

/-- Row lookups depend only on the `users` table. -/
theorem get_user_by_id_congr {db1 db2 : DB} (h : db1.users = db2.users)
    (user_id : Nat) : get_user_by_id db1 user_id = get_user_by_id db2 user_id := by
  simp [get_user_by_id, h]

/-- One iteration appends exactly one `campaign_results` row when the
recipient id resolves (the row is inserted by `log_campaign_sent` before the
generation and transport calls, so it is present whatever `gen` and `snd`
return), and none when it does not. -/
theorem process_user_results_length (gen snd) (campaign_id : Nat)
    (from_addr now : String) (campaign : Campaign)
    (acc : DispatchResults × DB) (user_id : Nat) :
    (process_user gen snd campaign_id from_addr now campaign acc user_id).2.campaign_results.length
      = acc.2.campaign_results.length
        + (if (get_user_by_id acc.2 user_id).isSome then 1 else 0) := by
  unfold process_user
  split
  next heq => simp [heq]
  next user heq =>
    rw [heq]
    split
    · simp [log_campaign_sent]
    · split
      · simp [log_campaign_sent]
      · simp [log_campaign_sent]

/-- One iteration only appends to the error list. -/
theorem process_user_errors_mono (gen snd) (campaign_id : Nat)
    (from_addr now : String) (campaign : Campaign)
    (acc : DispatchResults × DB) (user_id : Nat) :
    ∀ e ∈ acc.1.errors,
      e ∈ (process_user gen snd campaign_id from_addr now campaign acc user_id).1.errors := by
  intro e he
  unfold process_user
  split
  · exact List.mem_append_left _ he
  · split
    · exact List.mem_append_left _ he
    · split
      · exact List.mem_append_left _ he
      · exact he

/-- A recipient id that does not resolve contributes its
`"User {id} not found"` error. -/
theorem process_user_not_found_error (gen snd) (campaign_id : Nat)
    (from_addr now : String) (campaign : Campaign)
    (acc : DispatchResults × DB) (user_id : Nat)
    (h : get_user_by_id acc.2 user_id = none) :
    s!"User {user_id} not found"
      ∈ (process_user gen snd campaign_id from_addr now campaign acc user_id).1.errors := by
  unfold process_user
  rw [h]
  simp

/-- The dispatch loop preserves the `users` table. -/
theorem foldl_process_user_users (gen snd) (campaign_id : Nat)
    (from_addr now : String) (campaign : Campaign) :
    ∀ (l : List Nat) (acc : DispatchResults × DB),
      (l.foldl (process_user gen snd campaign_id from_addr now campaign) acc).2.users
        = acc.2.users := by
  intro l
  induction l with
  | nil => intro acc; rfl
  | cons uid t ih =>
    intro acc
    rw [List.foldl_cons, ih, process_user_users]

/-- The dispatch loop appends exactly one result row per resolving recipient
id (resolution judged against the initial store: the loop never changes
`users`). -/
theorem foldl_process_user_results_length (gen snd) (campaign_id : Nat)
    (from_addr now : String) (campaign : Campaign) :
    ∀ (l : List Nat) (acc : DispatchResults × DB),
      (l.foldl (process_user gen snd campaign_id from_addr now campaign) acc).2.campaign_results.length
        = acc.2.campaign_results.length
          + (l.filter (fun uid => (get_user_by_id acc.2 uid).isSome)).length := by
  intro l
  induction l with
  | nil => intro acc; simp
  | cons uid t ih =>
    intro acc
    rw [List.foldl_cons, ih, process_user_results_length]
    have husers :
        (process_user gen snd campaign_id from_addr now campaign acc uid).2.users
          = acc.2.users := process_user_users ..
    rw [List.filter_congr
      (fun u _ => by rw [get_user_by_id_congr husers u] :
        ∀ u ∈ t, ((get_user_by_id (process_user gen snd campaign_id from_addr now campaign acc uid).2 u).isSome : Bool)
          = (get_user_by_id acc.2 u).isSome)]
    rcases h : get_user_by_id acc.2 uid with _ | user
    · simp [h]
    · simp [h]
      omega

/-- Errors already accumulated survive the rest of the loop. -/
theorem foldl_process_user_errors_mono (gen snd) (campaign_id : Nat)
    (from_addr now : String) (campaign : Campaign) :
    ∀ (l : List Nat) (acc : DispatchResults × DB), ∀ e ∈ acc.1.errors,
      e ∈ (l.foldl (process_user gen snd campaign_id from_addr now campaign) acc).1.errors := by
  intro l
  induction l with
  | nil => intro acc e he; exact he
  | cons uid t ih =>
    intro acc e he
    rw [List.foldl_cons]
    exact ih _ e (process_user_errors_mono gen snd campaign_id from_addr now campaign acc uid e he)

/-- Every unresolved recipient id in the list ends up with its
`"User {id} not found"` error in the final error list. -/
theorem foldl_process_user_not_found (gen snd) (campaign_id : Nat)
    (from_addr now : String) (campaign : Campaign) :
    ∀ (l : List Nat) (acc : DispatchResults × DB), ∀ uid ∈ l,
      get_user_by_id acc.2 uid = none →
      s!"User {uid} not found"
        ∈ (l.foldl (process_user gen snd campaign_id from_addr now campaign) acc).1.errors := by
  intro l
  induction l with
  | nil => intro acc uid h; exact absurd h (List.not_mem_nil uid)
  | cons uid0 t ih =>
    intro acc uid hmem hnone
    rw [List.foldl_cons]
    rcases List.mem_cons.mp hmem with rfl | hmem'
    · exact foldl_process_user_errors_mono gen snd campaign_id from_addr now campaign t _ _
        (process_user_not_found_error gen snd campaign_id from_addr now campaign acc uid hnone)
    · refine ih _ uid hmem' ?_
      rw [get_user_by_id_congr (process_user_users ..) uid]
      exact hnone

/-! ## Claim theorems about the tracker and the store (C5–C9) -/

/-- C6: `mark_clicked` on a `CampaignResult` row with `clicked = 0` transitions
`clicked` to 1, and a second call on the same result leaves the state exactly
as after the first call (idempotent outcome). -/
theorem mark_clicked_idempotent (db : DB) (result_id : Nat) :
    (mark_clicked (mark_clicked db result_id).2 result_id).2
        = (mark_clicked db result_id).2
    ∧ ∀ r ∈ db.campaign_results, r.id = result_id → r.clicked = 0 →
        { r with clicked := 1 } ∈ (mark_clicked db result_id).2.campaign_results := by
  constructor
  · show ({ (mark_clicked db result_id).2 with campaign_results := _ } : DB) = _
    simp only [mark_clicked, List.map_map]
    congr 1
    apply List.map_congr_left
    intro r _
    by_cases h : r.id = result_id <;> simp [h]
  · intro r hr hid _
    simp only [mark_clicked]
    simpa [hid] using List.mem_map_of_mem
      (fun r => if r.id == result_id then { r with clicked := 1 } else r) hr

/-- C6 witness: concrete instance of `mark_clicked_idempotent`. -/
theorem mark_clicked_idempotent_witness :
    ({ exResult with clicked := 1 } : CampaignResult) ∈
      (mark_clicked exResultDB 7).2.campaign_results :=
  (mark_clicked_idempotent exResultDB 7).2 exResult (by decide) rfl rfl

/-- C7: `mark_clicked` and `mark_training_completed` return `true` exactly when
a `campaign_results` row with the given id exists; on a non-existent id they
are a no-op (`false`, store unchanged) rather than an error (they are total
functions). -/
theorem mark_result_found_iff (db : DB) (result_id : Nat) :
    ((mark_clicked db result_id).1 = true
        ↔ ∃ r ∈ db.campaign_results, r.id = result_id)
    ∧ ((mark_training_completed db result_id).1 = true
        ↔ ∃ r ∈ db.campaign_results, r.id = result_id)
    ∧ ((∀ r ∈ db.campaign_results, r.id ≠ result_id) →
        (mark_clicked db result_id).2 = db
          ∧ (mark_training_completed db result_id).2 = db) := by
  refine ⟨?_, ?_, ?_⟩
  · simp [mark_clicked, filter_not_isEmpty_iff]
  · simp [mark_training_completed, filter_not_isEmpty_iff]
  · intro hnone
    constructor
    · show ({ db with campaign_results := _ } : DB) = db
      rw [map_eq_self_of_forall_eq _ _ fun r hr => if_neg (by simp [hnone r hr])]
    · show ({ db with campaign_results := _ } : DB) = db
      rw [map_eq_self_of_forall_eq _ _ fun r hr => if_neg (by simp [hnone r hr])]

/-- C7 witness: concrete instance of `mark_result_found_iff` on a result id
that does not exist. -/
theorem mark_result_found_iff_witness :
    (mark_clicked exResultDB 9).2 = exResultDB
      ∧ (mark_training_completed exResultDB 9).2 = exResultDB :=
  (mark_result_found_iff exResultDB 9).2.2 (by decide)

/-- C8: `add_user` on an email that already exists in the `users` table is
rejected with an error (the `ValueError` raised from `sqlite3.IntegrityError`)
and leaves the user table — in fact the whole store — unchanged. -/
theorem add_user_duplicate_rejected (db : DB) (email created_at : String)
    (h : ∃ u ∈ db.users, u.email = email) :
    (add_user db email created_at).1
        = .error s!"User with email {email} already exists"
      ∧ (add_user db email created_at).2 = db := by
  obtain ⟨u, hu, he⟩ := h
  have hany : db.users.any (fun u => u.email == email) = true := by
    rw [List.any_eq_true]
    exact ⟨u, hu, by simp [he]⟩
  exact ⟨by simp [add_user, hany], by simp [add_user, hany]⟩

/-- C8 witness: concrete instance of `add_user_duplicate_rejected`. -/
theorem add_user_duplicate_rejected_witness :
    (add_user exUserDB "u1@example.com" "2026-02-14T11:00:00").1
        = .error "User with email u1@example.com already exists"
      ∧ (add_user exUserDB "u1@example.com" "2026-02-14T11:00:00").2 = exUserDB :=
  add_user_duplicate_rejected exUserDB "u1@example.com" "2026-02-14T11:00:00"
    ⟨exUser, by decide, rfl⟩

/-- C9: `delete_campaign` touches only the `campaigns` table: users, sample
emails and campaign results (including rows referencing the deleted campaign)
are unchanged, and among campaigns only the rows with the given id are
removed — deletion does not cascade to `campaign_results`. -/
theorem delete_campaign_frame (db : DB) (campaign_id : Nat) :
    ((delete_campaign db campaign_id).2.users = db.users
      ∧ (delete_campaign db campaign_id).2.sample_emails = db.sample_emails
      ∧ (delete_campaign db campaign_id).2.campaign_results = db.campaign_results)
    ∧ (∀ c ∈ (delete_campaign db campaign_id).2.campaigns,
        c.id ≠ campaign_id ∧ c ∈ db.campaigns)
    ∧ (∀ c ∈ db.campaigns, c.id ≠ campaign_id →
        c ∈ (delete_campaign db campaign_id).2.campaigns) := by
  refine ⟨⟨rfl, rfl, rfl⟩, ?_, ?_⟩
  · intro c hc
    rw [show (delete_campaign db campaign_id).2.campaigns
        = db.campaigns.filter (fun c => c.id != campaign_id) from rfl,
      List.mem_filter] at hc
    exact ⟨by simpa using hc.2, hc.1⟩
  · intro c hc hne
    rw [show (delete_campaign db campaign_id).2.campaigns
        = db.campaigns.filter (fun c => c.id != campaign_id) from rfl,
      List.mem_filter]
    exact ⟨hc, by simpa using hne⟩

/-- C9 witness: concrete instance of `delete_campaign_frame` — deleting
campaign 1 keeps campaign 2 and keeps the orphaned result row. -/
theorem delete_campaign_frame_witness :
    (delete_campaign exFullDB 1).2.campaign_results = exFullDB.campaign_results
      ∧ exCampaign2 ∈ (delete_campaign exFullDB 1).2.campaigns :=
  ⟨(delete_campaign_frame exFullDB 1).1.2.2,
    (delete_campaign_frame exFullDB 1).2.2 exCampaign2 (by decide) (by decide)⟩

/-- C5 counterexample: with 3 result rows of which 1 is clicked, the code's
`click_rate` is the two-decimal rounding `33.33`, not the exact value
`100 * 1 / 3` the claim states. -/
theorem get_stats_click_rate_not_exact :
    (get_stats statsDB).click_rate ≠ 100 * 1 / 3 := by
  have h : (get_stats statsDB).click_rate = round2 ((1 : ℚ) / 3 * 100) := by
    norm_num [get_stats, statsDB, emptyDB, exResult]
  rw [h, round2, round_eq]
  norm_num

/-- C5 (amended): `get_stats` returns `click_rate` equal to
`100 * clicked_count / sent_count` rounded to two decimal places when
`sent_count > 0`, and `0` when `sent_count = 0` (no division by zero). -/
theorem get_stats_click_rate_formula (db : DB) :
    (0 < db.campaign_results.length →
      (get_stats db).click_rate
        = round2 (100 *
            ((db.campaign_results.filter (fun r => r.clicked == 1)).length : ℚ)
            / (db.campaign_results.length : ℚ)))
    ∧ (db.campaign_results.length = 0 → (get_stats db).click_rate = 0) := by
  constructor
  · intro h
    show round2 (if _ > 0 then _ else _) = _
    rw [if_pos h]
    congr 1
    ring
  · intro h
    show round2 (if _ > 0 then _ else _) = _
    rw [if_neg (by omega), round2]
    norm_num

/-- C5 witness: concrete instances of `get_stats_click_rate_formula` for a
populated store and for the empty store. -/
theorem get_stats_click_rate_formula_witness :
    (get_stats statsDB).click_rate
        = round2 (100 *
            ((statsDB.campaign_results.filter (fun r => r.clicked == 1)).length : ℚ)
            / (statsDB.campaign_results.length : ℚ))
      ∧ (get_stats emptyDB).click_rate = 0 :=
  ⟨(get_stats_click_rate_formula statsDB).1 (by decide),
    (get_stats_click_rate_formula emptyDB).2 rfl⟩


/-! ## Claim theorems about the dispatcher (C1–C3) -/

/-- C1: every dispatch returns success and failed counts summing to
`len(user_ids)`; when the campaign id does not resolve, the result is
`success = 0`, `failed = len(user_ids)`, exactly one error message (the
campaign-not-found message when the email modules are configured), and the
store is untouched (no per-recipient work). -/
theorem send_campaign_counts (available : Bool)
    (gen : String → String → String → Except String EmailMessageModel)
    (snd : EmailMessageModel → Except String Unit)
    (db : DB) (campaign_id : Nat) (user_ids : List Nat) (from_addr now : String) :
    ((send_campaign_to_users available gen snd db campaign_id user_ids from_addr now).1.success
        + (send_campaign_to_users available gen snd db campaign_id user_ids from_addr now).1.failed
        = user_ids.length)
    ∧ (get_campaign_by_id db campaign_id = none →
        (send_campaign_to_users available gen snd db campaign_id user_ids from_addr now).1.success = 0
        ∧ (send_campaign_to_users available gen snd db campaign_id user_ids from_addr now).1.failed
            = user_ids.length
        ∧ (send_campaign_to_users available gen snd db campaign_id user_ids from_addr now).1.errors.length
            = 1
        ∧ (available = true →
            (send_campaign_to_users available gen snd db campaign_id user_ids from_addr now).1.errors
              = [s!"Campaign {campaign_id} not found"])
        ∧ (send_campaign_to_users available gen snd db campaign_id user_ids from_addr now).2 = db) := by
  unfold send_campaign_to_users
  cases available with
  | false =>
    constructor
    · simp
    · intro _
      refine ⟨by simp, by simp, by simp, ?_, by simp⟩
      intro h
      simp at h
  | true =>
    rcases hc : get_campaign_by_id db campaign_id with _ | campaign
    · constructor
      · simp
      · intro _
        exact ⟨by simp, by simp, by simp, fun _ => by simp, by simp⟩
    · constructor
      · simpa using foldl_process_user_counts gen snd campaign_id from_addr now campaign
          user_ids ({ success := 0, failed := 0, errors := [] }, db)
      · intro h
        simp at h

/-- C1 witness: concrete instance of `send_campaign_counts` on a store with no
campaigns. -/
theorem send_campaign_counts_witness :
    ((send_campaign_to_users true exGen exSnd emptyDB 1 [1, 2] "from@example.com" "t").1.success
        + (send_campaign_to_users true exGen exSnd emptyDB 1 [1, 2] "from@example.com" "t").1.failed
        = 2)
    ∧ ((send_campaign_to_users true exGen exSnd emptyDB 1 [1, 2] "from@example.com" "t").1.success = 0
        ∧ (send_campaign_to_users true exGen exSnd emptyDB 1 [1, 2] "from@example.com" "t").1.failed = 2
        ∧ (send_campaign_to_users true exGen exSnd emptyDB 1 [1, 2] "from@example.com" "t").1.errors.length = 1
        ∧ (true = true →
            (send_campaign_to_users true exGen exSnd emptyDB 1 [1, 2] "from@example.com" "t").1.errors
              = ["Campaign 1 not found"])
        ∧ (send_campaign_to_users true exGen exSnd emptyDB 1 [1, 2] "from@example.com" "t").2 = emptyDB) :=
  ⟨(send_campaign_counts true exGen exSnd emptyDB 1 [1, 2] "from@example.com" "t").1,
   (send_campaign_counts true exGen exSnd emptyDB 1 [1, 2] "from@example.com" "t").2 (by decide)⟩

/-- C2: on an existing campaign, the dispatch appends exactly one
`campaign_results` row per recipient id that resolves to a user (the row is
created by `log_campaign_sent` before the generation call, whatever the
generation and transport oracles later do); an id that does not resolve
contributes a `"User {id} not found"` error, no row, and does not abort the
rest; concretely, dispatching campaign 1 to `[1, 2]` where user 2 does not
exist, with succeeding oracles, gives `success = 1`, `failed = 1` and exactly
the one new row for user 1. -/
theorem send_campaign_one_row_per_resolved_recipient
    (gen : String → String → String → Except String EmailMessageModel)
    (snd : EmailMessageModel → Except String Unit)
    (db : DB) (campaign_id : Nat) (user_ids : List Nat) (from_addr now : String)
    (campaign : Campaign)
    (hc : get_campaign_by_id db campaign_id = some campaign) :
    ((send_campaign_to_users true gen snd db campaign_id user_ids from_addr now).2.campaign_results.length
        = db.campaign_results.length
          + (user_ids.filter (fun uid => (get_user_by_id db uid).isSome)).length)
    ∧ (∀ uid ∈ user_ids, get_user_by_id db uid = none →
        s!"User {uid} not found"
          ∈ (send_campaign_to_users true gen snd db campaign_id user_ids from_addr now).1.errors)
    ∧ send_campaign_to_users true exGen exSnd exDispatchDB 1 [1, 2] "from@example.com"
          "2026-02-14T12:00:00"
        = ({ success := 1, failed := 1, errors := ["User 2 not found"] }, exDispatchDB') := by
  refine ⟨?_, ?_, by decide⟩
  · unfold send_campaign_to_users
    rw [hc]
    simpa using foldl_process_user_results_length gen snd campaign_id from_addr now campaign
      user_ids ({ success := 0, failed := 0, errors := [] }, db)
  · intro uid hu hnone
    unfold send_campaign_to_users
    rw [hc]
    exact foldl_process_user_not_found gen snd campaign_id from_addr now campaign
      user_ids ({ success := 0, failed := 0, errors := [] }, db) uid hu hnone

/-- C2 witness: concrete instance of
`send_campaign_one_row_per_resolved_recipient`. -/
theorem send_campaign_one_row_per_resolved_recipient_witness :
    ((send_campaign_to_users true exGen exSnd exDispatchDB 1 [1, 2] "from@example.com"
          "2026-02-14T12:00:00").2.campaign_results.length
        = exDispatchDB.campaign_results.length
          + ([1, 2].filter (fun uid => (get_user_by_id exDispatchDB uid).isSome)).length)
    ∧ "User 2 not found"
        ∈ (send_campaign_to_users true exGen exSnd exDispatchDB 1 [1, 2] "from@example.com"
            "2026-02-14T12:00:00").1.errors :=
  ⟨(send_campaign_one_row_per_resolved_recipient exGen exSnd exDispatchDB 1 [1, 2]
      "from@example.com" "2026-02-14T12:00:00" exCampaign (by decide)).1,
   (send_campaign_one_row_per_resolved_recipient exGen exSnd exDispatchDB 1 [1, 2]
      "from@example.com" "2026-02-14T12:00:00" exCampaign (by decide)).2.1 2 (by decide) (by decide)⟩

/-- C3: every message handed to the transport by `process_user` has body
`finalize_body (tracking_link_for result_id) message.body`, and that
finalized body contains the tracking link of the recipient's
`CampaignResult` row verbatim: either the generated body already contains it,
or the fallback sentence carrying it is appended. -/
theorem finalize_body_contains_tracking (result_id : Nat) (body : String) :
    (tracking_link_for result_id).data
      <:+: (finalize_body (tracking_link_for result_id) body).data := by
  unfold finalize_body
  split
  · next h => exact h
  · next h =>
    rw [String.data_append, String.data_append]
    exact ((List.suffix_append _ _).trans (List.suffix_append _ _)).isInfix


/-! ## Claim theorems about the response parser (C4) -/

/-- Two tag lists with different head characters cannot both be prefixes of
the same line. -/
theorem isPrefixOf_head_eq {c0 c1 : Char} {t0 t1 l : List Char}
    (h0 : (c0 :: t0).isPrefixOf l = true) (h1 : (c1 :: t1).isPrefixOf l = true) :
    c0 = c1 := by
  cases l with
  | nil => simp [List.isPrefixOf] at h0
  | cons a l2 =>
    simp [List.isPrefixOf] at h0 h1
    exact h0.1.trans h1.1.symm

/-- A line beginning with one tag does not begin with a tag whose head
character differs. -/
theorem isPrefixOf_false_of_ne {c0 c1 : Char} {t0 t1 l : List Char}
    (h : (c0 :: t0).isPrefixOf l = true) (hne : c0 ≠ c1) :
    (c1 :: t1).isPrefixOf l = false := by
  cases hx : (c1 :: t1).isPrefixOf l
  · rfl
  · exact absurd (isPrefixOf_head_eq h hx) hne

/-- The `_parse_response` line loop, computed in selector form: the display
name and subject come from the last line beginning with their tag, `in_body`
records whether a `BODY:` line was seen, and the collected body lines are the
stripped non-tag lines (after the first `BODY:` line, when the state starts
outside the body). -/
theorem foldl_parseLine_eq : ∀ (lines : List (List Char)) (st : ParseState),
    lines.foldl parseLine st =
      { display_name := (lastTagValue 'D' "ISPLAY_NAME:".data lines).getD st.display_name
        subject := (lastTagValue 'S' "UBJECT:".data lines).getD st.subject
        body_lines := st.body_lines ++
          (if st.in_body then nonTagLines lines else bodyAfterTag lines)
        in_body := st.in_body || hasTag 'B' "ODY:".data lines } := by
  intro lines
  induction lines with
  | nil =>
    intro st
    simp [lastTagValue, nonTagLines, bodyAfterTag, hasTag]
  | cons l rest ih =>
    intro st
    rw [List.foldl_cons, ih]
    by_cases h1 : ('D' :: "ISPLAY_NAME:".data).isPrefixOf (stripChars l) = true
    · have h2 : ('S' :: "UBJECT:".data).isPrefixOf (stripChars l) = false :=
        isPrefixOf_false_of_ne h1 (by decide)
      have h3 : ('B' :: "ODY:".data).isPrefixOf (stripChars l) = false :=
        isPrefixOf_false_of_ne h1 (by decide)
      simp [parseLine, parseLineStripped, tagDisplay, tagSubject, tagBody,
        lastTagValue, nonTagLines, bodyAfterTag, hasTag, isTagLine, h1, h2, h3]
      cases lastTagValue 'D' "ISPLAY_NAME:".data rest <;> simp [Option.orElse]
    · by_cases h2 : ('S' :: "UBJECT:".data).isPrefixOf (stripChars l) = true
      · have h3 : ('B' :: "ODY:".data).isPrefixOf (stripChars l) = false :=
          isPrefixOf_false_of_ne h2 (by decide)
        simp [parseLine, parseLineStripped, tagDisplay, tagSubject, tagBody,
          lastTagValue, nonTagLines, bodyAfterTag, hasTag, isTagLine, h1, h2, h3]
        cases lastTagValue 'S' "UBJECT:".data rest <;> simp [Option.orElse]
      · by_cases h3 : ('B' :: "ODY:".data).isPrefixOf (stripChars l) = true
        · simp [parseLine, parseLineStripped, tagDisplay, tagSubject, tagBody,
            lastTagValue, nonTagLines, bodyAfterTag, hasTag, isTagLine, h1, h2, h3]
        · by_cases h4 : st.in_body
          · simp [parseLine, parseLineStripped, tagDisplay, tagSubject, tagBody,
              lastTagValue, nonTagLines, bodyAfterTag, hasTag, isTagLine, h1, h2, h3, h4]
          · simp [parseLine, parseLineStripped, tagDisplay, tagSubject, tagBody,
              lastTagValue, nonTagLines, bodyAfterTag, hasTag, isTagLine, h1, h2, h3, h4]

/-- C4 counterexample: on the response `"BODY:\nhello\nSUBJECT: x"` the parsed
body is `"hello"`, not every line after the `BODY:` line (`"hello\nSUBJECT:
x"`): a later line beginning with a tag is consumed as a tag line, not kept in
the body. -/
theorem parse_response_body_not_all_lines :
    (parse_response "BODY:\nhello\nSUBJECT: x").body
      ≠ claimed_body "BODY:\nhello\nSUBJECT: x" := by decide

/-- C4 (amended): for every response text, `_parse_response` produces the
record whose display name and subject come from the (last) line beginning
with their tag (whitespace-stripped, tag text removed), whose body is every
line after the `BODY:` line excluding lines that themselves begin with one of
the three tags (each line stripped, joined by newlines, and the result
stripped), and whose missing or empty fields fall back to `"Security Team"`,
`"Important Account Notice"` and the empty body. -/
theorem parse_response_eq_amended (text : String) :
    parse_response text = parse_response_amended text := by
  unfold parse_response parse_response_amended
  rw [foldl_parseLine_eq]
  cases hD : lastTagValue 'D' "ISPLAY_NAME:".data (splitLinesChars (stripChars text.data)) with
  | none =>
    cases hS : lastTagValue 'S' "UBJECT:".data (splitLinesChars (stripChars text.data)) with
    | none => simp [withDefault, hD, hS]
    | some v => simp [withDefault, hD, hS]
  | some v =>
    cases hS : lastTagValue 'S' "UBJECT:".data (splitLinesChars (stripChars text.data)) with
    | none => simp [withDefault, hD, hS]
    | some w => simp [withDefault, hD, hS]

/-! ## Claim theorems about sample-email upload (C10) -/

/-- C10 counterexample: on the malformed `.eml` bytes `68 FF 69` the stored
body is `"hi"` — the invalid byte is dropped (`errors='ignore'`), not
replaced with U+FFFD as the claim says (`h\uFFFDi`). -/
theorem upload_malformed_eml_not_replaced :
    (process_uploaded_file exParseFail "bad.eml" [104, 255, 105]).2
      ≠ decode_utf8_replace [104, 255, 105] := by decide

/-- C10 (amended): uploading a malformed `.eml` file does not raise (the
handler is a total function): when the structured-mail parse fails the sample
is still stored, with subject the uploaded file name and body the raw bytes
decoded as UTF-8 with invalid sequences dropped (`errors='ignore'`). -/
theorem upload_malformed_eml (parseEml : List Nat → Option (Option String × String))
    (db : DB) (user_id : Nat) (filename : String) (content : List Nat) (now : String)
    (hext : str_endswith filename ".eml" = true)
    (hparse : parseEml content = none) :
    process_uploaded_file parseEml filename content
        = (filename, decode_utf8_ignore content)
      ∧ (add_sample_email db user_id filename (decode_utf8_ignore content) now).2.sample_emails
          = db.sample_emails ++
            [{ id := db.next_sample_id, user_id := user_id, subject := filename,
               body := decode_utf8_ignore content, uploaded_at := now }] := by
  constructor
  · simp [process_uploaded_file, hext, hparse]
  · rfl

/-- C10 witness: concrete instance of `upload_malformed_eml`. -/
theorem upload_malformed_eml_witness :
    process_uploaded_file exParseFail "bad.eml" [104, 255, 105]
        = ("bad.eml", decode_utf8_ignore [104, 255, 105])
      ∧ (add_sample_email emptyDB 1 "bad.eml" (decode_utf8_ignore [104, 255, 105])
            "2026-02-14T13:00:00").2.sample_emails
          = emptyDB.sample_emails ++
            [{ id := emptyDB.next_sample_id, user_id := 1, subject := "bad.eml",
               body := decode_utf8_ignore [104, 255, 105],
               uploaded_at := "2026-02-14T13:00:00" }] :=
  upload_malformed_eml exParseFail emptyDB 1 "bad.eml" [104, 255, 105]
    "2026-02-14T13:00:00" (by decide) rfl

end PhishSim
